import Mathlib

/-!
Verification of the diagnostic/error-reporting subsystem of the LogSim
compiler front-end (source: `logsim/parser_handler.py`).

The Python classes `LineTerminalOutput`, `FileTerminalOutput` and
`ParserErrorHandler` are embedded shallowly below.  Python mutation is made
explicit: every method of `ParserErrorHandler` that mutates state or may
raise is embedded as a function returning the post-state together with the
list of lines printed to stdout and an optional raised exception.  The
external collaborators (`Names`, `Scanner`, `Devices`, `Network`,
`Monitors`), whose sources are not part of the analysed fragment, are
modelled from the specification at their documented boundary.
-/

namespace LogSim

/-- Python exception values that the embedded code can raise. -/
inductive PyError where
  | valueError (msg : String)
  | typeError (msg : String)
  | indexError (msg : String)
deriving DecidableEq, Repr

/-- Modelled from the spec: a symbol's `value` slot is
`optional(name-index | numeric literal)`; in the Python source this is the
attribute `symbol.id`, which is `None`, an `int` name index, or the decimal
text of a numeric literal.  `truthy` is Python truthiness, which the source
tests with `if symbol.id:`. -/
inductive PyVal where
  | pynone
  | pyint (n : Nat)
  | pystr (s : String)
deriving DecidableEq, Repr

/-- Python truthiness of a `PyVal`: `None`, `0` and `""` are falsy. -/
def PyVal.truthy : PyVal → Bool
  | PyVal.pynone => false
  | PyVal.pyint n => decide (n ≠ 0)
  | PyVal.pystr s => decide (s ≠ "")

/-- Modelled from the spec: the classification carried by a token.  The
named constructors are the `Scanner` class constants compared against in
`handle_error`; `OTHER n` stands for any classification value outside that
recognized set (classifications are plain integers in the source, so
values outside the named set exist). -/
inductive SymType where
  | KEYWORD
  | NAME
  | NUMBER
  | COMMA
  | SEMICOLON
  | COLON
  | FULL_STOP
  | ARROW
  | OPEN_CURLY_BRACKET
  | CLOSE_CURLY_BRACKET
  | EOF
  | OTHER (n : Nat)
deriving DecidableEq, Repr

/-- Modelled from the spec: a token with classification, optional value and
0-based source position; the attribute names follow the Python `Symbol`
class consumed by `handle_error`. -/
structure Symbol where
  type : SymType
  id : PyVal
  line : Nat
  character_in_line : Nat
deriving DecidableEq, Repr

/-- Modelled from the spec: the lexer owns an ordered, 0-indexed cache of
raw source lines (newline-stripped); `handle_error` reads
`scanner.file_lines[line]`. -/
structure Scanner where
  file_lines : List String
deriving DecidableEq, Repr

/-- Modelled from the spec: the `Names` module owns the error-code registry
cursor and the name table used by `get_name_string`. -/
structure Names where
  error_code_count : Nat
  names : List String
deriving DecidableEq, Repr

/-- Modelled from the spec (§4.1 Error-Code Registry): `allocate(n)` returns
`n` fresh pairwise-distinct identifiers, allocated in monotonically
increasing batches, and advances the cursor; mirrors the Python
`Names.unique_error_codes`. -/
def Names.unique_error_codes (self : Names) (num_error_codes : Nat) : List Nat × Names :=
  ((List.range num_error_codes).map (fun i => self.error_code_count + i),
   { self with error_code_count := self.error_code_count + num_error_codes })

/-- Modelled from the spec: name lookup, resolving a name index to its
string in the table owned by the `Names` module; an index outside the table
is a fault of the external module. -/
def Names.get_name_string (self : Names) (name_id : Nat) : Except PyError String :=
  match self.names.get? name_id with
  | some s => Except.ok s
  | none => Except.error (PyError.indexError "name index out of range")

/-- Modelled from the spec: the devices collaborator owns the
identifier-redefinition code it re-exports into the catalog. -/
structure Devices where
  DEVICE_PRESENT : Nat
deriving DecidableEq, Repr

/-- Modelled from the spec: the network collaborator owns the three
semantic codes it re-exports into the catalog. -/
structure Network where
  PORT_ABSENT : Nat
  INPUT_CONNECTED : Nat
  DEVICE_ABSENT : Nat
deriving DecidableEq, Repr

/-- Modelled from the spec: the monitors collaborator owns the
monitor-redefinition code it re-exports into the catalog. -/
structure Monitors where
  MONITOR_PRESENT : Nat
deriving DecidableEq, Repr

/-- Embeds the Python class `LineTerminalOutput`: a positional diagnostic.
The `__init__` sets every field to `None`; the only constructor used in the
source, `get_line_terminal_output`, always assigns strings to all four
fields, so the fields are embedded as `String`. -/
structure LineTerminalOutput where
  line_location : String
  line_with_issue : String
  arrow : String
  message : String
deriving DecidableEq, Repr

/-- Embeds `LineTerminalOutput.__str__`:
`f"\n{self.line_location}\n{self.line_with_issue}{self.arrow}\n{self.message}\n"`.
Note the source places no newline between `line_with_issue` and `arrow`. -/
def LineTerminalOutput.toStr (self : LineTerminalOutput) : String :=
  "\n" ++ self.line_location ++ "\n" ++ self.line_with_issue ++ self.arrow ++ "\n"
    ++ self.message ++ "\n"

/-- Embeds the Python class `FileTerminalOutput`: a file-level diagnostic. -/
structure FileTerminalOutput where
  message : String
deriving DecidableEq, Repr

/-- Embeds `FileTerminalOutput.__str__`: `f"\nFile error: {self.message}\n"`. -/
def FileTerminalOutput.toStr (self : FileTerminalOutput) : String :=
  "\nFile error: " ++ self.message ++ "\n"

/-- The Python `error_output_list` holds both diagnostic shapes; this sum
tags which one an element is. -/
inductive TerminalOutput where
  | line (out : LineTerminalOutput)
  | file (out : FileTerminalOutput)
deriving DecidableEq, Repr

/-- Embeds Python string repetition `s * n` (used as `" " * character_in_line`). -/
def strTimes (s : String) (n : Nat) : String :=
  String.join (List.replicate n s)

/-- Embeds the state of the Python class `ParserErrorHandler`: collaborator
references, the diagnostics list, and the 17 syntax plus 4 semantic error
codes allocated in `__init__`. -/
structure ParserErrorHandler where
  names : Names
  devices : Devices
  network : Network
  monitors : Monitors
  scanner : Scanner
  error_output_list : List TerminalOutput
  EXPECT_IDENTIFIER : Nat
  EXPECT_INPUT_DEVICE : Nat
  EXPECT_VARIABLE_INPUT_NUMBER : Nat
  EXPECT_CLOCK_CYCLE : Nat
  EXPECT_INITIAL_STATE : Nat
  EXPECT_PIN_IN : Nat
  EXPECT_PIN_OUT : Nat
  EXPECT_PIN_IN_OR_OUT : Nat
  EXPECT_KEYWORD : Nat
  EXPECT_OPEN_CURLY_BRACKET : Nat
  EXPECT_COMMA : Nat
  EXPECT_SEMICOLON : Nat
  EXPECT_COLON : Nat
  EXPECT_FULL_STOP_OR_SEMICOLON : Nat
  EXPECT_FULL_STOP : Nat
  EXPECT_ARROW : Nat
  EXPECT_FULL_STOP_OR_ARROW : Nat
  MISSING_CLOCK_OR_SWITCH : Nat
  DUPLICATE_KEYWORD : Nat
  WRONG_BLOCK_ORDER : Nat
  MONITOR_NOT_DEFINED : Nat
deriving DecidableEq, Repr

/-- Embeds `ParserErrorHandler.__init__`: stores the collaborator
references, starts with an empty diagnostics list, and allocates 17 syntax
codes followed by 4 semantic codes from the registry (`unique_error_codes`
hands out the consecutive block starting at the cursor; the Python
destructuring assignment binding the 21 returned codes in order is written
out elementwise here). -/
def ParserErrorHandler.init (names : Names) (devices : Devices) (network : Network)
    (monitors : Monitors) (scanner : Scanner) : ParserErrorHandler :=
  let base := names.error_code_count
  { names := ((names.unique_error_codes 17).2.unique_error_codes 4).2
    devices := devices
    network := network
    monitors := monitors
    scanner := scanner
    error_output_list := []
    EXPECT_IDENTIFIER := base
    EXPECT_INPUT_DEVICE := base + 1
    EXPECT_VARIABLE_INPUT_NUMBER := base + 2
    EXPECT_CLOCK_CYCLE := base + 3
    EXPECT_INITIAL_STATE := base + 4
    EXPECT_PIN_IN := base + 5
    EXPECT_PIN_OUT := base + 6
    EXPECT_PIN_IN_OR_OUT := base + 7
    EXPECT_KEYWORD := base + 8
    EXPECT_OPEN_CURLY_BRACKET := base + 9
    EXPECT_COMMA := base + 10
    EXPECT_SEMICOLON := base + 11
    EXPECT_COLON := base + 12
    EXPECT_FULL_STOP_OR_SEMICOLON := base + 13
    EXPECT_FULL_STOP := base + 14
    EXPECT_ARROW := base + 15
    EXPECT_FULL_STOP_OR_ARROW := base + 16
    MISSING_CLOCK_OR_SWITCH := base + 17
    DUPLICATE_KEYWORD := base + 18
    WRONG_BLOCK_ORDER := base + 19
    MONITOR_NOT_DEFINED := base + 20 }

/-- Embeds `ParserErrorHandler.get_error_message` (the message catalog).
The first statement of the Python body wraps the label in double quotes;
only then does it test `not name`, so the guard sees the already-quoted
label.  The `elif False:` branch reproduces the source's disabled
"missing input" template. -/
def ParserErrorHandler.get_error_message (self : ParserErrorHandler) (error_code : Nat)
    (name : String) : Except PyError String :=
  let name := "\"" ++ name ++ "\""
  if error_code ≠ self.MISSING_CLOCK_OR_SWITCH ∧ name = "" then
    Except.error (PyError.typeError
      ("error_code = " ++ toString error_code ++ " has 1 required positional argument: 'name'"))
  else if error_code = self.EXPECT_IDENTIFIER then
    Except.ok ("Found " ++ name ++ ", expected a non-keyword identifier")
  else if error_code = self.EXPECT_INPUT_DEVICE then
    Except.ok ("Found " ++ name ++ ", expected 'AND', 'NAND', 'OR', 'NOR', 'XOR' or 'DTYPE'")
  else if error_code = self.EXPECT_VARIABLE_INPUT_NUMBER then
    Except.ok ("Found " ++ name ++ ", expected integer between 1 and 16")
  else if error_code = self.EXPECT_CLOCK_CYCLE then
    Except.ok ("Found " ++ name ++ ", expected positive integer with no leading zero")
  else if error_code = self.EXPECT_INITIAL_STATE then
    Except.ok ("Found " ++ name ++ ", expected 0 or 1")
  else if error_code = self.EXPECT_PIN_IN then
    Except.ok ("Found " ++ name ++ ", expected 'I1-16', 'DATA', 'CLK', 'SET' or 'CLEAR'")
  else if error_code = self.EXPECT_PIN_OUT then
    Except.ok ("Found " ++ name ++ ", expected 'Q' or 'QBAR'")
  else if error_code = self.EXPECT_PIN_IN_OR_OUT then
    Except.ok ("Found " ++ name ++ ", expected 'I1-16', 'DATA', 'CLK', 'SET', 'CLEAR', 'Q' or 'QBAR'")
  else if error_code = self.EXPECT_KEYWORD then
    Except.ok ("Found " ++ name ++ ", expected a keyword ('DEVICE', 'CLOCK', 'SWITCH', 'MONITOR' or 'CONNECTION')")
  else if error_code = self.EXPECT_OPEN_CURLY_BRACKET then
    Except.ok ("Found " ++ name ++ ", expected '\x7b'")
  else if error_code = self.EXPECT_COMMA then
    Except.ok ("Found " ++ name ++ ", expected ','")
  else if error_code = self.EXPECT_SEMICOLON then
    Except.ok ("Found " ++ name ++ ", expected ';'")
  else if error_code = self.EXPECT_COLON then
    Except.ok ("Found " ++ name ++ ", expected ':'")
  else if error_code = self.EXPECT_FULL_STOP_OR_SEMICOLON then
    Except.ok ("Found " ++ name ++ ", expected '.' (if pin has to be defined) or ';' (if pin does not have to be defined)")
  else if error_code = self.EXPECT_FULL_STOP then
    Except.ok ("Found " ++ name ++ ", expected '.'")
  else if error_code = self.EXPECT_ARROW then
    Except.ok ("Found " ++ name ++ ", expected '>'")
  else if error_code = self.EXPECT_FULL_STOP_OR_ARROW then
    Except.ok ("Found " ++ name ++ ", expected '.' (if pin has to be defined) or ';' (if pin does not have to be defined)")
  else if error_code = self.network.PORT_ABSENT then
    Except.ok ("Pin " ++ name ++ " does not exist")
  else if error_code = self.network.INPUT_CONNECTED then
    Except.ok ("Connection repeatedly assigned to input pin " ++ name)
  else if false then
    Except.ok ("Missing input to pin " ++ name)
  else if error_code = self.network.DEVICE_ABSENT then
    Except.ok ("Identifier " ++ name ++ " is not defined")
  else if error_code = self.devices.DEVICE_PRESENT ∨ error_code = self.monitors.MONITOR_PRESENT then
    Except.ok ("Identifier " ++ name ++ " should not be redefined")
  else if error_code = self.MISSING_CLOCK_OR_SWITCH then
    Except.ok "At least one list between 'CLOCK' and 'SWITCH' is needed. neither is found"
  else if error_code = self.DUPLICATE_KEYWORD then
    Except.ok (name ++ " block should not be redefined")
  else if error_code = self.WRONG_BLOCK_ORDER then
    Except.ok (name ++ " block order is wrong")
  else if error_code = self.MONITOR_NOT_DEFINED then
    Except.ok "At least one monitor should be defined"
  else
    Except.error (PyError.valueError ("Invalid error code '" ++ toString error_code ++ "'"))

/-- Embeds `ParserErrorHandler.get_line_terminal_output`; the list access
`self.scanner.file_lines[line]` raises `IndexError` out of range, as in
Python. -/
def ParserErrorHandler.get_line_terminal_output (self : ParserErrorHandler) (line : Nat)
    (character_in_line : Nat) (message : String) : Except PyError LineTerminalOutput :=
  match self.scanner.file_lines.get? line with
  | none => Except.error (PyError.indexError "list index out of range")
  | some withIssue =>
      Except.ok
        { line_location := "Line " ++ toString (line + 1) ++ ":"
          line_with_issue := withIssue
          arrow := strTimes " " character_in_line ++ "^"
          message := message }

/-- Embeds the label-resolution `if`/`elif` chain opening
`ParserErrorHandler.handle_error` (source lines 49-71).  The source tests
`if symbol.id:` — Python truthiness — with the comment "symbol id is not
None, i.e. symbol.type is KEYWORD, NUMBER or NAME".  For a `NUMBER` the
source passes `symbol.id` itself as the label (the decimal text per the
spec); a non-string value there would make the later string concatenation
in `get_error_message` raise `TypeError`, which is where the embedded
`typeError` results come from. -/
def ParserErrorHandler.symbolName (self : ParserErrorHandler) (symbol : Symbol) :
    Except PyError String :=
  if symbol.id.truthy then
    if symbol.type = SymType.NUMBER then
      match symbol.id with
      | PyVal.pystr s => Except.ok s
      | _ => Except.error (PyError.typeError "can only concatenate str to str")
    else
      match symbol.id with
      | PyVal.pyint n => self.names.get_name_string n
      | _ => Except.error (PyError.typeError "name index must be an integer")
  else if symbol.type = SymType.COMMA then Except.ok ","
  else if symbol.type = SymType.SEMICOLON then Except.ok ";"
  else if symbol.type = SymType.COLON then Except.ok ":"
  else if symbol.type = SymType.FULL_STOP then Except.ok "."
  else if symbol.type = SymType.ARROW then Except.ok ">"
  else if symbol.type = SymType.OPEN_CURLY_BRACKET then Except.ok "\x7b"
  else if symbol.type = SymType.CLOSE_CURLY_BRACKET then Except.ok "\x7d"
  else if symbol.type = SymType.EOF then Except.ok ""
  else Except.error (PyError.valueError "Invalid symbol type")

/-- Embeds `ParserErrorHandler.handle_error`: prints "handling error",
resolves the label, looks up the message, builds the positional diagnostic
and appends it.  The result is (post-state, stdout lines, raised
exception); a raise propagates before the append, leaving the state
untouched. -/
def ParserErrorHandler.handle_error (self : ParserErrorHandler) (error_code : Nat)
    (symbol : Symbol) : ParserErrorHandler × List String × Option PyError :=
  let printed := [ "handling error" ]
  match self.symbolName symbol with
  | Except.error e => (self, printed, some e)
  | Except.ok name =>
    match self.get_error_message error_code name with
    | Except.error e => (self, printed, some e)
    | Except.ok error_message =>
      match self.get_line_terminal_output symbol.line symbol.character_in_line error_message with
      | Except.error e => (self, printed, some e)
      | Except.ok error_output =>
          ({ self with
              error_output_list := self.error_output_list ++ [ TerminalOutput.line error_output ] },
           printed, none)

/-- Embeds `ParserErrorHandler.file_error`: looks up the template with the
default (empty) label, builds a `FileTerminalOutput` and appends it; a
raise from the lookup propagates before the append. -/
def ParserErrorHandler.file_error (self : ParserErrorHandler) (error_code : Nat) :
    ParserErrorHandler × List String × Option PyError :=
  match self.get_error_message error_code "" with
  | Except.error e => (self, [], some e)
  | Except.ok m =>
      ({ self with
          error_output_list := self.error_output_list ++ [ TerminalOutput.file { message := m } ] },
       [], none)

/-- The declared identifier set of the catalog: the 17 syntax codes, the 4
semantic codes owned by the formatter, and the 5 semantic codes re-exported
from the devices/network/monitors collaborators. -/
def ParserErrorHandler.declaredCodes (self : ParserErrorHandler) : List Nat :=
  [ self.EXPECT_IDENTIFIER, self.EXPECT_INPUT_DEVICE, self.EXPECT_VARIABLE_INPUT_NUMBER,
    self.EXPECT_CLOCK_CYCLE, self.EXPECT_INITIAL_STATE, self.EXPECT_PIN_IN, self.EXPECT_PIN_OUT,
    self.EXPECT_PIN_IN_OR_OUT, self.EXPECT_KEYWORD, self.EXPECT_OPEN_CURLY_BRACKET,
    self.EXPECT_COMMA, self.EXPECT_SEMICOLON, self.EXPECT_COLON,
    self.EXPECT_FULL_STOP_OR_SEMICOLON, self.EXPECT_FULL_STOP, self.EXPECT_ARROW,
    self.EXPECT_FULL_STOP_OR_ARROW, self.MISSING_CLOCK_OR_SWITCH, self.DUPLICATE_KEYWORD,
    self.WRONG_BLOCK_ORDER, self.MONITOR_NOT_DEFINED, self.network.PORT_ABSENT,
    self.network.INPUT_CONNECTED, self.network.DEVICE_ABSENT, self.devices.DEVICE_PRESENT,
    self.monitors.MONITOR_PRESENT ]

/-- Modelled from the spec (§4.1, §3 ErrorCode): the collaborator modules
allocate their semantic codes from the same monotone registry before the
formatter is constructed, so those five codes are pairwise distinct and all
precede the registry cursor the formatter allocates from. -/
def registryFresh (names : Names) (devices : Devices) (network : Network)
    (monitors : Monitors) : Prop :=
  network.PORT_ABSENT < names.error_code_count ∧
  network.INPUT_CONNECTED < names.error_code_count ∧
  network.DEVICE_ABSENT < names.error_code_count ∧
  devices.DEVICE_PRESENT < names.error_code_count ∧
  monitors.MONITOR_PRESENT < names.error_code_count ∧
  network.PORT_ABSENT ≠ network.INPUT_CONNECTED ∧
  network.PORT_ABSENT ≠ network.DEVICE_ABSENT ∧
  network.PORT_ABSENT ≠ devices.DEVICE_PRESENT ∧
  network.PORT_ABSENT ≠ monitors.MONITOR_PRESENT ∧
  network.INPUT_CONNECTED ≠ network.DEVICE_ABSENT ∧
  network.INPUT_CONNECTED ≠ devices.DEVICE_PRESENT ∧
  network.INPUT_CONNECTED ≠ monitors.MONITOR_PRESENT ∧
  network.DEVICE_ABSENT ≠ devices.DEVICE_PRESENT ∧
  network.DEVICE_ABSENT ≠ monitors.MONITOR_PRESENT ∧
  devices.DEVICE_PRESENT ≠ monitors.MONITOR_PRESENT

/-! Helper lemmas. -/

lemma append_ne_empty (s t : String) (h : s ≠ "") : s ++ t ≠ "" := by
  intro hc
  apply h
  have h2 := congrArg String.length hc
  simp [String.length_append] at h2
  have h3 : s.length = 0 := h2.1
  cases s with
  | mk data =>
    cases data with
    | nil => rfl
    | cons a l => simp [String.length] at h3

lemma quoted_ne_empty (s : String) : ("\"" ++ s ++ "\"") ≠ "" := by
  intro h
  have h2 := congrArg String.length h
  simp [String.length_append] at h2
  exact absurd h2.1.1 (by decide)

section InitLemmas

variable (nm0 : Names) (dv : Devices) (nw : Network) (mo : Monitors) (sc : Scanner)

@[simp] lemma init_EXPECT_IDENTIFIER :
    (ParserErrorHandler.init nm0 dv nw mo sc).EXPECT_IDENTIFIER = nm0.error_code_count := rfl

@[simp] lemma init_EXPECT_INPUT_DEVICE :
    (ParserErrorHandler.init nm0 dv nw mo sc).EXPECT_INPUT_DEVICE = nm0.error_code_count + 1 := rfl

@[simp] lemma init_EXPECT_VARIABLE_INPUT_NUMBER :
    (ParserErrorHandler.init nm0 dv nw mo sc).EXPECT_VARIABLE_INPUT_NUMBER = nm0.error_code_count + 2 := rfl

@[simp] lemma init_EXPECT_CLOCK_CYCLE :
    (ParserErrorHandler.init nm0 dv nw mo sc).EXPECT_CLOCK_CYCLE = nm0.error_code_count + 3 := rfl

@[simp] lemma init_EXPECT_INITIAL_STATE :
    (ParserErrorHandler.init nm0 dv nw mo sc).EXPECT_INITIAL_STATE = nm0.error_code_count + 4 := rfl

@[simp] lemma init_EXPECT_PIN_IN :
    (ParserErrorHandler.init nm0 dv nw mo sc).EXPECT_PIN_IN = nm0.error_code_count + 5 := rfl

@[simp] lemma init_EXPECT_PIN_OUT :
    (ParserErrorHandler.init nm0 dv nw mo sc).EXPECT_PIN_OUT = nm0.error_code_count + 6 := rfl

@[simp] lemma init_EXPECT_PIN_IN_OR_OUT :
    (ParserErrorHandler.init nm0 dv nw mo sc).EXPECT_PIN_IN_OR_OUT = nm0.error_code_count + 7 := rfl

@[simp] lemma init_EXPECT_KEYWORD :
    (ParserErrorHandler.init nm0 dv nw mo sc).EXPECT_KEYWORD = nm0.error_code_count + 8 := rfl

@[simp] lemma init_EXPECT_OPEN_CURLY_BRACKET :
    (ParserErrorHandler.init nm0 dv nw mo sc).EXPECT_OPEN_CURLY_BRACKET = nm0.error_code_count + 9 := rfl

@[simp] lemma init_EXPECT_COMMA :
    (ParserErrorHandler.init nm0 dv nw mo sc).EXPECT_COMMA = nm0.error_code_count + 10 := rfl

@[simp] lemma init_EXPECT_SEMICOLON :
    (ParserErrorHandler.init nm0 dv nw mo sc).EXPECT_SEMICOLON = nm0.error_code_count + 11 := rfl

@[simp] lemma init_EXPECT_COLON :
    (ParserErrorHandler.init nm0 dv nw mo sc).EXPECT_COLON = nm0.error_code_count + 12 := rfl

@[simp] lemma init_EXPECT_FULL_STOP_OR_SEMICOLON :
    (ParserErrorHandler.init nm0 dv nw mo sc).EXPECT_FULL_STOP_OR_SEMICOLON = nm0.error_code_count + 13 := rfl

@[simp] lemma init_EXPECT_FULL_STOP :
    (ParserErrorHandler.init nm0 dv nw mo sc).EXPECT_FULL_STOP = nm0.error_code_count + 14 := rfl

@[simp] lemma init_EXPECT_ARROW :
    (ParserErrorHandler.init nm0 dv nw mo sc).EXPECT_ARROW = nm0.error_code_count + 15 := rfl

@[simp] lemma init_EXPECT_FULL_STOP_OR_ARROW :
    (ParserErrorHandler.init nm0 dv nw mo sc).EXPECT_FULL_STOP_OR_ARROW = nm0.error_code_count + 16 := rfl

@[simp] lemma init_MISSING_CLOCK_OR_SWITCH :
    (ParserErrorHandler.init nm0 dv nw mo sc).MISSING_CLOCK_OR_SWITCH = nm0.error_code_count + 17 := rfl

@[simp] lemma init_DUPLICATE_KEYWORD :
    (ParserErrorHandler.init nm0 dv nw mo sc).DUPLICATE_KEYWORD = nm0.error_code_count + 18 := rfl

@[simp] lemma init_WRONG_BLOCK_ORDER :
    (ParserErrorHandler.init nm0 dv nw mo sc).WRONG_BLOCK_ORDER = nm0.error_code_count + 19 := rfl

@[simp] lemma init_MONITOR_NOT_DEFINED :
    (ParserErrorHandler.init nm0 dv nw mo sc).MONITOR_NOT_DEFINED = nm0.error_code_count + 20 := rfl

@[simp] lemma init_devices :
    (ParserErrorHandler.init nm0 dv nw mo sc).devices = dv := rfl

@[simp] lemma init_network :
    (ParserErrorHandler.init nm0 dv nw mo sc).network = nw := rfl

@[simp] lemma init_monitors :
    (ParserErrorHandler.init nm0 dv nw mo sc).monitors = mo := rfl

@[simp] lemma init_scanner :
    (ParserErrorHandler.init nm0 dv nw mo sc).scanner = sc := rfl

@[simp] lemma init_error_output_list :
    (ParserErrorHandler.init nm0 dv nw mo sc).error_output_list = [] := rfl

end InitLemmas

lemma eqFalse_of_lt {p n : Nat} (h : p < n) : (p = n) = False := by
  simp only [eq_iff_iff, iff_false]
  omega

lemma eqFalse_add_of_lt {p n : Nat} (h : p < n) (k : Nat) : (p = n + k) = False := by
  simp only [eq_iff_iff, iff_false]
  omega

lemma addEqFalse_of_lt {p n : Nat} (h : p < n) (k : Nat) : (n + k = p) = False := by
  simp only [eq_iff_iff, iff_false]
  omega

section GemLemmas

set_option maxHeartbeats 2000000

variable (nm0 : Names) (dv : Devices) (nw : Network) (mo : Monitors) (sc : Scanner)

lemma gem_EXPECT_IDENTIFIER (nm : String) :
    (ParserErrorHandler.init nm0 dv nw mo sc).get_error_message nm0.error_code_count nm
      = Except.ok ("Found " ++ ("\"" ++ nm ++ "\"") ++ ", expected a non-keyword identifier") := by
  simp [ParserErrorHandler.get_error_message, quoted_ne_empty nm, add_right_inj,
    add_right_eq_self]

lemma gem_EXPECT_INPUT_DEVICE (nm : String) :
    (ParserErrorHandler.init nm0 dv nw mo sc).get_error_message (nm0.error_code_count + 1) nm
      = Except.ok ("Found " ++ ("\"" ++ nm ++ "\"") ++ ", expected 'AND', 'NAND', 'OR', 'NOR', 'XOR' or 'DTYPE'") := by
  simp [ParserErrorHandler.get_error_message, quoted_ne_empty nm, add_right_inj,
    add_right_eq_self]

lemma gem_EXPECT_VARIABLE_INPUT_NUMBER (nm : String) :
    (ParserErrorHandler.init nm0 dv nw mo sc).get_error_message (nm0.error_code_count + 2) nm
      = Except.ok ("Found " ++ ("\"" ++ nm ++ "\"") ++ ", expected integer between 1 and 16") := by
  simp [ParserErrorHandler.get_error_message, quoted_ne_empty nm, add_right_inj,
    add_right_eq_self]

lemma gem_EXPECT_CLOCK_CYCLE (nm : String) :
    (ParserErrorHandler.init nm0 dv nw mo sc).get_error_message (nm0.error_code_count + 3) nm
      = Except.ok ("Found " ++ ("\"" ++ nm ++ "\"") ++ ", expected positive integer with no leading zero") := by
  simp [ParserErrorHandler.get_error_message, quoted_ne_empty nm, add_right_inj,
    add_right_eq_self]

lemma gem_EXPECT_INITIAL_STATE (nm : String) :
    (ParserErrorHandler.init nm0 dv nw mo sc).get_error_message (nm0.error_code_count + 4) nm
      = Except.ok ("Found " ++ ("\"" ++ nm ++ "\"") ++ ", expected 0 or 1") := by
  simp [ParserErrorHandler.get_error_message, quoted_ne_empty nm, add_right_inj,
    add_right_eq_self]

lemma gem_EXPECT_PIN_IN (nm : String) :
    (ParserErrorHandler.init nm0 dv nw mo sc).get_error_message (nm0.error_code_count + 5) nm
      = Except.ok ("Found " ++ ("\"" ++ nm ++ "\"") ++ ", expected 'I1-16', 'DATA', 'CLK', 'SET' or 'CLEAR'") := by
  simp [ParserErrorHandler.get_error_message, quoted_ne_empty nm, add_right_inj,
    add_right_eq_self]

lemma gem_EXPECT_PIN_OUT (nm : String) :
    (ParserErrorHandler.init nm0 dv nw mo sc).get_error_message (nm0.error_code_count + 6) nm
      = Except.ok ("Found " ++ ("\"" ++ nm ++ "\"") ++ ", expected 'Q' or 'QBAR'") := by
  simp [ParserErrorHandler.get_error_message, quoted_ne_empty nm, add_right_inj,
    add_right_eq_self]

lemma gem_EXPECT_PIN_IN_OR_OUT (nm : String) :
    (ParserErrorHandler.init nm0 dv nw mo sc).get_error_message (nm0.error_code_count + 7) nm
      = Except.ok ("Found " ++ ("\"" ++ nm ++ "\"") ++ ", expected 'I1-16', 'DATA', 'CLK', 'SET', 'CLEAR', 'Q' or 'QBAR'") := by
  simp [ParserErrorHandler.get_error_message, quoted_ne_empty nm, add_right_inj,
    add_right_eq_self]

lemma gem_EXPECT_KEYWORD (nm : String) :
    (ParserErrorHandler.init nm0 dv nw mo sc).get_error_message (nm0.error_code_count + 8) nm
      = Except.ok ("Found " ++ ("\"" ++ nm ++ "\"") ++ ", expected a keyword ('DEVICE', 'CLOCK', 'SWITCH', 'MONITOR' or 'CONNECTION')") := by
  simp [ParserErrorHandler.get_error_message, quoted_ne_empty nm, add_right_inj,
    add_right_eq_self]

lemma gem_EXPECT_OPEN_CURLY_BRACKET (nm : String) :
    (ParserErrorHandler.init nm0 dv nw mo sc).get_error_message (nm0.error_code_count + 9) nm
      = Except.ok ("Found " ++ ("\"" ++ nm ++ "\"") ++ ", expected '\x7b'") := by
  simp [ParserErrorHandler.get_error_message, quoted_ne_empty nm, add_right_inj,
    add_right_eq_self]

lemma gem_EXPECT_COMMA (nm : String) :
    (ParserErrorHandler.init nm0 dv nw mo sc).get_error_message (nm0.error_code_count + 10) nm
      = Except.ok ("Found " ++ ("\"" ++ nm ++ "\"") ++ ", expected ','") := by
  simp [ParserErrorHandler.get_error_message, quoted_ne_empty nm, add_right_inj,
    add_right_eq_self]

lemma gem_EXPECT_SEMICOLON (nm : String) :
    (ParserErrorHandler.init nm0 dv nw mo sc).get_error_message (nm0.error_code_count + 11) nm
      = Except.ok ("Found " ++ ("\"" ++ nm ++ "\"") ++ ", expected ';'") := by
  simp [ParserErrorHandler.get_error_message, quoted_ne_empty nm, add_right_inj,
    add_right_eq_self]

lemma gem_EXPECT_COLON (nm : String) :
    (ParserErrorHandler.init nm0 dv nw mo sc).get_error_message (nm0.error_code_count + 12) nm
      = Except.ok ("Found " ++ ("\"" ++ nm ++ "\"") ++ ", expected ':'") := by
  simp [ParserErrorHandler.get_error_message, quoted_ne_empty nm, add_right_inj,
    add_right_eq_self]

lemma gem_EXPECT_FULL_STOP_OR_SEMICOLON (nm : String) :
    (ParserErrorHandler.init nm0 dv nw mo sc).get_error_message (nm0.error_code_count + 13) nm
      = Except.ok ("Found " ++ ("\"" ++ nm ++ "\"") ++ ", expected '.' (if pin has to be defined) or ';' (if pin does not have to be defined)") := by
  simp [ParserErrorHandler.get_error_message, quoted_ne_empty nm, add_right_inj,
    add_right_eq_self]

lemma gem_EXPECT_FULL_STOP (nm : String) :
    (ParserErrorHandler.init nm0 dv nw mo sc).get_error_message (nm0.error_code_count + 14) nm
      = Except.ok ("Found " ++ ("\"" ++ nm ++ "\"") ++ ", expected '.'") := by
  simp [ParserErrorHandler.get_error_message, quoted_ne_empty nm, add_right_inj,
    add_right_eq_self]

lemma gem_EXPECT_ARROW (nm : String) :
    (ParserErrorHandler.init nm0 dv nw mo sc).get_error_message (nm0.error_code_count + 15) nm
      = Except.ok ("Found " ++ ("\"" ++ nm ++ "\"") ++ ", expected '>'") := by
  simp [ParserErrorHandler.get_error_message, quoted_ne_empty nm, add_right_inj,
    add_right_eq_self]

lemma gem_EXPECT_FULL_STOP_OR_ARROW (nm : String) :
    (ParserErrorHandler.init nm0 dv nw mo sc).get_error_message (nm0.error_code_count + 16) nm
      = Except.ok ("Found " ++ ("\"" ++ nm ++ "\"") ++ ", expected '.' (if pin has to be defined) or ';' (if pin does not have to be defined)") := by
  simp [ParserErrorHandler.get_error_message, quoted_ne_empty nm, add_right_inj,
    add_right_eq_self]

lemma gem_MISSING_CLOCK_OR_SWITCH (hrf : registryFresh nm0 dv nw mo) (nm : String) :
    (ParserErrorHandler.init nm0 dv nw mo sc).get_error_message (nm0.error_code_count + 17) nm
      = Except.ok "At least one list between 'CLOCK' and 'SWITCH' is needed. neither is found" := by
  obtain ⟨h1, h2, h3, h4, h5, -, -, -, -, -, -, -, -, -, -⟩ := hrf
  simp [ParserErrorHandler.get_error_message, quoted_ne_empty nm, add_right_inj,
    add_right_eq_self, addEqFalse_of_lt h1, addEqFalse_of_lt h2, addEqFalse_of_lt h3,
    addEqFalse_of_lt h4, addEqFalse_of_lt h5]

lemma gem_DUPLICATE_KEYWORD (hrf : registryFresh nm0 dv nw mo) (nm : String) :
    (ParserErrorHandler.init nm0 dv nw mo sc).get_error_message (nm0.error_code_count + 18) nm
      = Except.ok (("\"" ++ nm ++ "\"") ++ " block should not be redefined") := by
  obtain ⟨h1, h2, h3, h4, h5, -, -, -, -, -, -, -, -, -, -⟩ := hrf
  simp [ParserErrorHandler.get_error_message, quoted_ne_empty nm, add_right_inj,
    add_right_eq_self, addEqFalse_of_lt h1, addEqFalse_of_lt h2, addEqFalse_of_lt h3,
    addEqFalse_of_lt h4, addEqFalse_of_lt h5]

lemma gem_WRONG_BLOCK_ORDER (hrf : registryFresh nm0 dv nw mo) (nm : String) :
    (ParserErrorHandler.init nm0 dv nw mo sc).get_error_message (nm0.error_code_count + 19) nm
      = Except.ok (("\"" ++ nm ++ "\"") ++ " block order is wrong") := by
  obtain ⟨h1, h2, h3, h4, h5, -, -, -, -, -, -, -, -, -, -⟩ := hrf
  simp [ParserErrorHandler.get_error_message, quoted_ne_empty nm, add_right_inj,
    add_right_eq_self, addEqFalse_of_lt h1, addEqFalse_of_lt h2, addEqFalse_of_lt h3,
    addEqFalse_of_lt h4, addEqFalse_of_lt h5]

lemma gem_MONITOR_NOT_DEFINED (hrf : registryFresh nm0 dv nw mo) (nm : String) :
    (ParserErrorHandler.init nm0 dv nw mo sc).get_error_message (nm0.error_code_count + 20) nm
      = Except.ok "At least one monitor should be defined" := by
  obtain ⟨h1, h2, h3, h4, h5, -, -, -, -, -, -, -, -, -, -⟩ := hrf
  simp [ParserErrorHandler.get_error_message, quoted_ne_empty nm, add_right_inj,
    add_right_eq_self, addEqFalse_of_lt h1, addEqFalse_of_lt h2, addEqFalse_of_lt h3,
    addEqFalse_of_lt h4, addEqFalse_of_lt h5]

lemma gem_PORT_ABSENT (hrf : registryFresh nm0 dv nw mo) (nm : String) :
    (ParserErrorHandler.init nm0 dv nw mo sc).get_error_message nw.PORT_ABSENT nm
      = Except.ok ("Pin " ++ ("\"" ++ nm ++ "\"") ++ " does not exist") := by
  obtain ⟨h1, h2, h3, h4, h5, -, -, -, -, -, -, -, -, -, -⟩ := hrf
  simp [ParserErrorHandler.get_error_message, quoted_ne_empty nm,
    eqFalse_of_lt h1, eqFalse_add_of_lt h1]

lemma gem_INPUT_CONNECTED (hrf : registryFresh nm0 dv nw mo) (nm : String) :
    (ParserErrorHandler.init nm0 dv nw mo sc).get_error_message nw.INPUT_CONNECTED nm
      = Except.ok ("Connection repeatedly assigned to input pin " ++ ("\"" ++ nm ++ "\"")) := by
  obtain ⟨h1, h2, h3, h4, h5, h6, -, -, -, -, -, -, -, -, -⟩ := hrf
  simp [ParserErrorHandler.get_error_message, quoted_ne_empty nm,
    eqFalse_of_lt h2, eqFalse_add_of_lt h2, h6.symm]

lemma gem_DEVICE_ABSENT (hrf : registryFresh nm0 dv nw mo) (nm : String) :
    (ParserErrorHandler.init nm0 dv nw mo sc).get_error_message nw.DEVICE_ABSENT nm
      = Except.ok ("Identifier " ++ ("\"" ++ nm ++ "\"") ++ " is not defined") := by
  obtain ⟨h1, h2, h3, h4, h5, h6, h7, h8, h9, h10, -, -, -, -, -⟩ := hrf
  simp [ParserErrorHandler.get_error_message, quoted_ne_empty nm,
    eqFalse_of_lt h3, eqFalse_add_of_lt h3, h7.symm, h10.symm]

lemma gem_DEVICE_PRESENT (hrf : registryFresh nm0 dv nw mo) (nm : String) :
    (ParserErrorHandler.init nm0 dv nw mo sc).get_error_message dv.DEVICE_PRESENT nm
      = Except.ok ("Identifier " ++ ("\"" ++ nm ++ "\"") ++ " should not be redefined") := by
  obtain ⟨h1, h2, h3, h4, h5, h6, h7, h8, h9, h10, h11, h12, h13, -, -⟩ := hrf
  simp [ParserErrorHandler.get_error_message, quoted_ne_empty nm,
    eqFalse_of_lt h4, eqFalse_add_of_lt h4, h8.symm, h11.symm, h13.symm]

lemma gem_MONITOR_PRESENT (hrf : registryFresh nm0 dv nw mo) (nm : String) :
    (ParserErrorHandler.init nm0 dv nw mo sc).get_error_message mo.MONITOR_PRESENT nm
      = Except.ok ("Identifier " ++ ("\"" ++ nm ++ "\"") ++ " should not be redefined") := by
  obtain ⟨h1, h2, h3, h4, h5, h6, h7, h8, h9, h10, h11, h12, h13, h14, h15⟩ := hrf
  simp [ParserErrorHandler.get_error_message, quoted_ne_empty nm,
    eqFalse_of_lt h5, eqFalse_add_of_lt h5, h9.symm, h12.symm, h14.symm]

end GemLemmas

section UnknownCode

set_option maxHeartbeats 2000000

variable (nm0 : Names) (dv : Devices) (nw : Network) (mo : Monitors) (sc : Scanner)

lemma gem_unknown (c : Nat) (hc : c ∉ (ParserErrorHandler.init nm0 dv nw mo sc).declaredCodes)
    (nm : String) :
    (ParserErrorHandler.init nm0 dv nw mo sc).get_error_message c nm
      = Except.error (PyError.valueError ("Invalid error code '" ++ toString c ++ "'")) := by
  simp only [ParserErrorHandler.declaredCodes, List.mem_cons, List.not_mem_nil, or_false,
    init_EXPECT_IDENTIFIER, init_EXPECT_INPUT_DEVICE, init_EXPECT_VARIABLE_INPUT_NUMBER,
    init_EXPECT_CLOCK_CYCLE, init_EXPECT_INITIAL_STATE, init_EXPECT_PIN_IN, init_EXPECT_PIN_OUT,
    init_EXPECT_PIN_IN_OR_OUT, init_EXPECT_KEYWORD, init_EXPECT_OPEN_CURLY_BRACKET,
    init_EXPECT_COMMA, init_EXPECT_SEMICOLON, init_EXPECT_COLON,
    init_EXPECT_FULL_STOP_OR_SEMICOLON, init_EXPECT_FULL_STOP, init_EXPECT_ARROW,
    init_EXPECT_FULL_STOP_OR_ARROW, init_MISSING_CLOCK_OR_SWITCH, init_DUPLICATE_KEYWORD,
    init_WRONG_BLOCK_ORDER, init_MONITOR_NOT_DEFINED, init_devices, init_network,
    init_monitors] at hc
  push_neg at hc
  obtain ⟨g1, g2, g3, g4, g5, g6, g7, g8, g9, g10, g11, g12, g13, g14, g15, g16, g17, g18,
    g19, g20, g21, g22, g23, g24, g25, g26⟩ := hc
  simp [ParserErrorHandler.get_error_message, quoted_ne_empty nm, g1, g2, g3, g4, g5, g6, g7,
    g8, g9, g10, g11, g12, g13, g14, g15, g16, g17, g18, g19, g20, g21, g22, g23, g24, g25, g26]

end UnknownCode

/-! Inversion lemmas for the mutating operations. -/

lemma handle_error_ok_inv {self h' : ParserErrorHandler} {o : List String} {c : Nat}
    {s : Symbol} (h : self.handle_error c s = (h', o, none)) :
    o = [ "handling error" ] ∧
      ∃ l, h' = { self with
        error_output_list := self.error_output_list ++ [ TerminalOutput.line l ] } := by
  simp only [ParserErrorHandler.handle_error] at h
  rcases hsn : self.symbolName s with e | nme
  · simp only [hsn] at h
    simp at h
  · simp only [hsn] at h
    rcases hg : self.get_error_message c nme with e | msg
    · simp only [hg] at h
      simp at h
    · simp only [hg] at h
      rcases hl : self.get_line_terminal_output s.line s.character_in_line msg with e | out
      · simp only [hl] at h
        simp at h
      · simp only [hl] at h
        simp only [Prod.mk.injEq] at h
        exact ⟨h.2.1.symm, out, h.1.symm⟩

lemma file_error_ok_inv {self h' : ParserErrorHandler} {o : List String} {c : Nat}
    (h : self.file_error c = (h', o, none)) :
    o = [] ∧
      ∃ f, h' = { self with
        error_output_list := self.error_output_list ++ [ TerminalOutput.file f ] } := by
  simp only [ParserErrorHandler.file_error] at h
  rcases hg : self.get_error_message c "" with e | msg
  · simp only [hg] at h
    simp at h
  · simp only [hg] at h
    simp only [Prod.mk.injEq] at h
    exact ⟨h.2.1.symm, { message := msg }, h.1.symm⟩

/-! Concrete instances used by witnesses and counterexamples: the
collaborators allocated codes 0-4 from a fresh registry, the formatter is
constructed next (codes 5-25), the name table holds two names and the
source cache holds five lines. -/

def nm0C : Names := { error_code_count := 5, names := [ "A", "B" ] }

def dvC : Devices := { DEVICE_PRESENT := 3 }

def nwC : Network := { PORT_ABSENT := 0, INPUT_CONNECTED := 1, DEVICE_ABSENT := 2 }

def moC : Monitors := { MONITOR_PRESENT := 4 }

def scC : Scanner := { file_lines := [ "SW1 > G1;", "x", "x", "x", "A -> B;" ] }

def hC : ParserErrorHandler := ParserErrorHandler.init nm0C dvC nwC moC scC

/-- Splits a character list into the lines it spells, accumulating the
current line in reverse; used to talk about the individual lines of a
rendered diagnostic. -/
def splitLinesAux : List Char → List Char → List String
  | [], acc => [ String.mk acc.reverse ]
  | c :: rest, acc =>
      if c = '\n' then String.mk acc.reverse :: splitLinesAux rest []
      else splitLinesAux rest (c :: acc)

/-- The lines of a rendered string, in order (what the text displays as). -/
def linesOf (s : String) : List String := splitLinesAux s.data []

/-! Claim theorems. -/

/-- C1: the claim says `get_error_message` raises the `MissingLabelArgument`
fault (a `TypeError`) when called with an empty label for any code other
than the missing-clock-or-switch code.  The code does not: the label is
wrapped in quote characters before the emptiness test, so the quoted label
is never empty and the `TypeError` branch is unreachable — an empty-label
call on `EXPECT_IDENTIFIER` returns a message with an empty quoted label,
and no input at all can make `get_error_message` return a `TypeError`. -/
theorem c1_missing_label_guard_dead (nm0 : Names) (dv : Devices) (nw : Network)
    (mo : Monitors) (sc : Scanner) :
    (ParserErrorHandler.init nm0 dv nw mo sc).get_error_message
        (ParserErrorHandler.init nm0 dv nw mo sc).EXPECT_IDENTIFIER ""
      = Except.ok "Found \"\", expected a non-keyword identifier"
    ∧ ∀ (c : Nat) (nm m : String),
        (ParserErrorHandler.init nm0 dv nw mo sc).get_error_message c nm
          ≠ Except.error (PyError.typeError m) := by
  constructor
  · exact gem_EXPECT_IDENTIFIER nm0 dv nw mo sc ""
  · intro c nm m h
    simp only [ParserErrorHandler.get_error_message] at h
    rw [if_neg (fun hq => quoted_ne_empty nm hq.2)] at h
    simp [ite_eq_iff] at h

/-- C2: the claim says every symbol whose classification carries a value
(`Keyword`, `Name`, `Number`) resolves to a display label and never trips
the invalid-classification fault.  The code tests `if symbol.id:`
(truthiness) rather than `is not None`, contradicting its own comment, so a
`Keyword` symbol whose value is the name index 0 falls through the
punctuation chain and `handle_error` raises
`ValueError("Invalid symbol type")` without appending anything. -/
theorem c2_keyword_index_zero_raises (self : ParserErrorHandler) (c : Nat)
    (line col : Nat) :
    self.handle_error c
        { type := SymType.KEYWORD, id := PyVal.pyint 0, line := line, character_in_line := col }
      = (self, [ "handling error" ], some (PyError.valueError "Invalid symbol type")) := by
  rfl

/-- C3 (amended): a symbol whose classification is outside the recognized
set *and* whose value slot is falsy makes `handle_error` raise
`ValueError("Invalid symbol type")` and return the state unchanged (the
raise precedes the append).  The amendment is forced because a symbol with
an unrecognized classification but a truthy value is instead routed through
name lookup and appended normally (see the counterexample). -/
theorem c3_unrecognized_falsy_raises (self : ParserErrorHandler) (c : Nat) (s : Symbol)
    (n' : Nat) (ht : s.type = SymType.OTHER n') (hid : s.id.truthy = false) :
    self.handle_error c s
      = (self, [ "handling error" ], some (PyError.valueError "Invalid symbol type")) := by
  obtain ⟨ty, idv, line, col⟩ := s
  simp only at ht hid
  subst ht
  simp [ParserErrorHandler.handle_error, ParserErrorHandler.symbolName, hid]

/-- Witness for C3's amended theorem at a concrete unrecognized
classification with an absent value. -/
theorem c3_unrecognized_falsy_raises_witness :
    ({ type := SymType.OTHER 99, id := PyVal.pynone, line := 0, character_in_line := 0
        : Symbol }).type = SymType.OTHER 99
    ∧ ({ type := SymType.OTHER 99, id := PyVal.pynone, line := 0, character_in_line := 0
        : Symbol }).id.truthy = false
    ∧ hC.handle_error 7
        { type := SymType.OTHER 99, id := PyVal.pynone, line := 0, character_in_line := 0 }
      = (hC, [ "handling error" ], some (PyError.valueError "Invalid symbol type")) :=
  ⟨rfl, rfl, c3_unrecognized_falsy_raises hC 7
    { type := SymType.OTHER 99, id := PyVal.pynone, line := 0, character_in_line := 0 }
    99 rfl rfl⟩

/-- C3 (counterexample): the claim as stated is false — this symbol's
classification is outside the recognized set, yet `handle_error` does not
raise (its value slot is the truthy name index 1, so the label resolves by
name lookup) and it appends a diagnostic, changing the DiagnosticList. -/
theorem c3_counterexample :
    (hC.handle_error 5
        { type := SymType.OTHER 99, id := PyVal.pyint 1, line := 0, character_in_line := 0 }).2.2
      = none
    ∧ (hC.handle_error 5
        { type := SymType.OTHER 99, id := PyVal.pyint 1, line := 0, character_in_line := 0
          }).1.error_output_list
      ≠ hC.error_output_list := by
  constructor
  · rfl
  · decide

/-- C10: the two ambiguity codes `EXPECT_FULL_STOP_OR_SEMICOLON` and
`EXPECT_FULL_STOP_OR_ARROW` resolve to the identical message string for
every label. -/
theorem c10_shared_ambiguity_template (nm0 : Names) (dv : Devices) (nw : Network)
    (mo : Monitors) (sc : Scanner) :
    ∀ nm : String,
      (ParserErrorHandler.init nm0 dv nw mo sc).get_error_message
          (ParserErrorHandler.init nm0 dv nw mo sc).EXPECT_FULL_STOP_OR_SEMICOLON nm
        = (ParserErrorHandler.init nm0 dv nw mo sc).get_error_message
            (ParserErrorHandler.init nm0 dv nw mo sc).EXPECT_FULL_STOP_OR_ARROW nm := by
  intro nm
  rw [init_EXPECT_FULL_STOP_OR_SEMICOLON, init_EXPECT_FULL_STOP_OR_ARROW,
    gem_EXPECT_FULL_STOP_OR_SEMICOLON, gem_EXPECT_FULL_STOP_OR_ARROW]

/-- C4: the catalog is total over the declared identifier set (17 syntax
codes, 4 formatter-owned semantic codes, 5 collaborator semantic codes):
with a non-empty label, every declared code resolves to a non-empty message
string; every code outside the union raises
`ValueError("Invalid error code ...")` (`UnknownErrorCode`), and a
`file_error` call with such a code appends nothing to the DiagnosticList. -/
theorem c4_message_for_total (nm0 : Names) (dv : Devices) (nw : Network) (mo : Monitors)
    (sc : Scanner) (hrf : registryFresh nm0 dv nw mo) :
    (∀ c ∈ (ParserErrorHandler.init nm0 dv nw mo sc).declaredCodes, ∀ nm : String, nm ≠ "" →
      ∃ m, (ParserErrorHandler.init nm0 dv nw mo sc).get_error_message c nm = Except.ok m
        ∧ m ≠ "")
    ∧ (∀ c ∉ (ParserErrorHandler.init nm0 dv nw mo sc).declaredCodes, ∀ nm : String,
        (ParserErrorHandler.init nm0 dv nw mo sc).get_error_message c nm
          = Except.error (PyError.valueError ("Invalid error code '" ++ toString c ++ "'"))
        ∧ ((ParserErrorHandler.init nm0 dv nw mo sc).file_error c).1.error_output_list
          = (ParserErrorHandler.init nm0 dv nw mo sc).error_output_list) := by
  constructor
  · intro c hc nm _hnm
    simp only [ParserErrorHandler.declaredCodes, List.mem_cons, List.not_mem_nil, or_false,
      init_EXPECT_IDENTIFIER, init_EXPECT_INPUT_DEVICE, init_EXPECT_VARIABLE_INPUT_NUMBER,
      init_EXPECT_CLOCK_CYCLE, init_EXPECT_INITIAL_STATE, init_EXPECT_PIN_IN,
      init_EXPECT_PIN_OUT, init_EXPECT_PIN_IN_OR_OUT, init_EXPECT_KEYWORD,
      init_EXPECT_OPEN_CURLY_BRACKET, init_EXPECT_COMMA, init_EXPECT_SEMICOLON,
      init_EXPECT_COLON, init_EXPECT_FULL_STOP_OR_SEMICOLON, init_EXPECT_FULL_STOP,
      init_EXPECT_ARROW, init_EXPECT_FULL_STOP_OR_ARROW, init_MISSING_CLOCK_OR_SWITCH,
      init_DUPLICATE_KEYWORD, init_WRONG_BLOCK_ORDER, init_MONITOR_NOT_DEFINED,
      init_devices, init_network, init_monitors] at hc
    rcases hc with rfl | rfl | rfl | rfl | rfl | rfl | rfl | rfl | rfl | rfl | rfl | rfl |
      rfl | rfl | rfl | rfl | rfl | rfl | rfl | rfl | rfl | rfl | rfl | rfl | rfl | rfl
    · exact ⟨_, gem_EXPECT_IDENTIFIER nm0 dv nw mo sc nm,
        append_ne_empty _ _ (append_ne_empty _ _ (by decide))⟩
    · exact ⟨_, gem_EXPECT_INPUT_DEVICE nm0 dv nw mo sc nm,
        append_ne_empty _ _ (append_ne_empty _ _ (by decide))⟩
    · exact ⟨_, gem_EXPECT_VARIABLE_INPUT_NUMBER nm0 dv nw mo sc nm,
        append_ne_empty _ _ (append_ne_empty _ _ (by decide))⟩
    · exact ⟨_, gem_EXPECT_CLOCK_CYCLE nm0 dv nw mo sc nm,
        append_ne_empty _ _ (append_ne_empty _ _ (by decide))⟩
    · exact ⟨_, gem_EXPECT_INITIAL_STATE nm0 dv nw mo sc nm,
        append_ne_empty _ _ (append_ne_empty _ _ (by decide))⟩
    · exact ⟨_, gem_EXPECT_PIN_IN nm0 dv nw mo sc nm,
        append_ne_empty _ _ (append_ne_empty _ _ (by decide))⟩
    · exact ⟨_, gem_EXPECT_PIN_OUT nm0 dv nw mo sc nm,
        append_ne_empty _ _ (append_ne_empty _ _ (by decide))⟩
    · exact ⟨_, gem_EXPECT_PIN_IN_OR_OUT nm0 dv nw mo sc nm,
        append_ne_empty _ _ (append_ne_empty _ _ (by decide))⟩
    · exact ⟨_, gem_EXPECT_KEYWORD nm0 dv nw mo sc nm,
        append_ne_empty _ _ (append_ne_empty _ _ (by decide))⟩
    · exact ⟨_, gem_EXPECT_OPEN_CURLY_BRACKET nm0 dv nw mo sc nm,
        append_ne_empty _ _ (append_ne_empty _ _ (by decide))⟩
    · exact ⟨_, gem_EXPECT_COMMA nm0 dv nw mo sc nm,
        append_ne_empty _ _ (append_ne_empty _ _ (by decide))⟩
    · exact ⟨_, gem_EXPECT_SEMICOLON nm0 dv nw mo sc nm,
        append_ne_empty _ _ (append_ne_empty _ _ (by decide))⟩
    · exact ⟨_, gem_EXPECT_COLON nm0 dv nw mo sc nm,
        append_ne_empty _ _ (append_ne_empty _ _ (by decide))⟩
    · exact ⟨_, gem_EXPECT_FULL_STOP_OR_SEMICOLON nm0 dv nw mo sc nm,
        append_ne_empty _ _ (append_ne_empty _ _ (by decide))⟩
    · exact ⟨_, gem_EXPECT_FULL_STOP nm0 dv nw mo sc nm,
        append_ne_empty _ _ (append_ne_empty _ _ (by decide))⟩
    · exact ⟨_, gem_EXPECT_ARROW nm0 dv nw mo sc nm,
        append_ne_empty _ _ (append_ne_empty _ _ (by decide))⟩
    · exact ⟨_, gem_EXPECT_FULL_STOP_OR_ARROW nm0 dv nw mo sc nm,
        append_ne_empty _ _ (append_ne_empty _ _ (by decide))⟩
    · exact ⟨_, gem_MISSING_CLOCK_OR_SWITCH nm0 dv nw mo sc hrf nm, by decide⟩
    · exact ⟨_, gem_DUPLICATE_KEYWORD nm0 dv nw mo sc hrf nm,
        append_ne_empty _ _ (quoted_ne_empty nm)⟩
    · exact ⟨_, gem_WRONG_BLOCK_ORDER nm0 dv nw mo sc hrf nm,
        append_ne_empty _ _ (quoted_ne_empty nm)⟩
    · exact ⟨_, gem_MONITOR_NOT_DEFINED nm0 dv nw mo sc hrf nm, by decide⟩
    · exact ⟨_, gem_PORT_ABSENT nm0 dv nw mo sc hrf nm,
        append_ne_empty _ _ (append_ne_empty _ _ (by decide))⟩
    · exact ⟨_, gem_INPUT_CONNECTED nm0 dv nw mo sc hrf nm,
        append_ne_empty _ _ (by decide)⟩
    · exact ⟨_, gem_DEVICE_ABSENT nm0 dv nw mo sc hrf nm,
        append_ne_empty _ _ (append_ne_empty _ _ (by decide))⟩
    · exact ⟨_, gem_DEVICE_PRESENT nm0 dv nw mo sc hrf nm,
        append_ne_empty _ _ (append_ne_empty _ _ (by decide))⟩
    · exact ⟨_, gem_MONITOR_PRESENT nm0 dv nw mo sc hrf nm,
        append_ne_empty _ _ (append_ne_empty _ _ (by decide))⟩
  · intro c hc nm
    have hg := gem_unknown nm0 dv nw mo sc c hc
    refine ⟨hg nm, ?_⟩
    simp [ParserErrorHandler.file_error, hg ""]

/-- Witness for C4 at the concrete construction: collaborator codes 0-4,
formatter codes 5-25. -/
theorem c4_message_for_total_witness :
    registryFresh nm0C dvC nwC moC
    ∧ ((∀ c ∈ (ParserErrorHandler.init nm0C dvC nwC moC scC).declaredCodes,
          ∀ nm : String, nm ≠ "" →
          ∃ m, (ParserErrorHandler.init nm0C dvC nwC moC scC).get_error_message c nm
              = Except.ok m ∧ m ≠ "")
        ∧ (∀ c ∉ (ParserErrorHandler.init nm0C dvC nwC moC scC).declaredCodes, ∀ nm : String,
            (ParserErrorHandler.init nm0C dvC nwC moC scC).get_error_message c nm
              = Except.error (PyError.valueError ("Invalid error code '" ++ toString c ++ "'"))
            ∧ ((ParserErrorHandler.init nm0C dvC nwC moC scC).file_error c).1.error_output_list
              = (ParserErrorHandler.init nm0C dvC nwC moC scC).error_output_list)) :=
  ⟨by unfold registryFresh; decide,
   c4_message_for_total nm0C dvC nwC moC scC (by unfold registryFresh; decide)⟩

/-- C5 (amended): the positional diagnostic is built from the 1-based line
header, the cached source line, the caret string of `col` spaces and `^`,
and the message; its rendering is a blank line, the header, then one line
consisting of the cached source line immediately followed by the caret
string (the `__str__` template places no newline between them), then the
message, then a blank line.  The claim's "caret line on its own line" fails
because the cached lines are newline-stripped (see the counterexample). -/
theorem c5_render_combined_line (self : ParserErrorHandler) (line col : Nat) (msg : String)
    (h : line < self.scanner.file_lines.length) :
    ∃ out, self.get_line_terminal_output line col msg = Except.ok out
      ∧ self.scanner.file_lines.get? line = some out.line_with_issue
      ∧ out.line_location = "Line " ++ toString (line + 1) ++ ":"
      ∧ out.arrow = strTimes " " col ++ "^"
      ∧ out.message = msg
      ∧ out.toStr = "\n" ++ out.line_location ++ "\n"
          ++ (out.line_with_issue ++ out.arrow) ++ "\n" ++ out.message ++ "\n" := by
  have hget := List.get?_eq_get h
  simp only [ParserErrorHandler.get_line_terminal_output, hget]
  refine ⟨_, rfl, rfl, rfl, rfl, rfl, ?_⟩
  simp [LineTerminalOutput.toStr, String.append_assoc]

/-- Witness for C5's amended theorem at line 4, column 7, over the cached
line "A -> B;". -/
theorem c5_render_combined_line_witness :
    4 < hC.scanner.file_lines.length
    ∧ ∃ out, hC.get_line_terminal_output 4 7 "m" = Except.ok out
      ∧ hC.scanner.file_lines.get? 4 = some out.line_with_issue
      ∧ out.line_location = "Line " ++ toString (4 + 1) ++ ":"
      ∧ out.arrow = strTimes " " 7 ++ "^"
      ∧ out.message = "m"
      ∧ out.toStr = "\n" ++ out.line_location ++ "\n"
          ++ (out.line_with_issue ++ out.arrow) ++ "\n" ++ out.message ++ "\n" :=
  ⟨by decide, c5_render_combined_line hC 4 7 "m" (by decide)⟩

/-- C5 (counterexample): for the symbol at line 4, column 7 over cached
line "A -> B;", the rendering of the produced diagnostic does contain
"Line 5:" as a line, but no line of it is the claimed caret line of exactly
7 spaces followed by the caret: the source line and the caret text share
one line, "A -> B;       ^". -/
theorem c5_counterexample :
    (hC.handle_error 5
        { type := SymType.NAME, id := PyVal.pyint 1, line := 4, character_in_line := 7
          }).1.error_output_list
      = [ TerminalOutput.line
          { line_location := "Line 5:", line_with_issue := "A -> B;", arrow := "       ^",
            message := "Found \"B\", expected a non-keyword identifier" } ]
    ∧ linesOf (LineTerminalOutput.toStr
        { line_location := "Line 5:", line_with_issue := "A -> B;", arrow := "       ^",
          message := "Found \"B\", expected a non-keyword identifier" })
      = [ "", "Line 5:", "A -> B;       ^",
          "Found \"B\", expected a non-keyword identifier", "" ]
    ∧ ("Line 5:" ∈ linesOf (LineTerminalOutput.toStr
        { line_location := "Line 5:", line_with_issue := "A -> B;", arrow := "       ^",
          message := "Found \"B\", expected a non-keyword identifier" })) = True
    ∧ ("       ^" ∈ linesOf (LineTerminalOutput.toStr
        { line_location := "Line 5:", line_with_issue := "A -> B;", arrow := "       ^",
          message := "Found \"B\", expected a non-keyword identifier" })) = False := by
  exact ⟨rfl, by decide, by decide, by decide⟩

/-- C6: the claim says a non-raising `handle_error` call's only observable
effect is the single append, with no other output.  Evaluating a
successful call shows the append and the unchanged remaining state, but
also the line "handling error" written to stdout by the `print` statement
opening `handle_error` — output the claim says does not exist. -/
theorem c6_print_breaks_frame :
    hC.handle_error 5
        { type := SymType.NAME, id := PyVal.pyint 1, line := 0, character_in_line := 2 }
      = ({ hC with error_output_list := [ TerminalOutput.line
            { line_location := "Line 1:", line_with_issue := "SW1 > G1;", arrow := "  ^",
              message := "Found \"B\", expected a non-keyword identifier" } ] },
         [ "handling error" ], none) := by
  rfl

/-- C7: the DiagnosticList is append-only and order-preserving — two
non-raising `handle_error` calls followed by a non-raising `file_error`
call extend the list by exactly three diagnostics, in call order, with the
two positional diagnostics first and the file diagnostic last. -/
theorem c7_append_order (h0 h1 h2 h3 : ParserErrorHandler) (o1 o2 o3 : List String)
    (c1 c2 c3 : Nat) (s1 s2 : Symbol)
    (e1 : h0.handle_error c1 s1 = (h1, o1, none))
    (e2 : h1.handle_error c2 s2 = (h2, o2, none))
    (e3 : h2.file_error c3 = (h3, o3, none)) :
    ∃ l1 l2 f3, h3.error_output_list
      = h0.error_output_list
        ++ [ TerminalOutput.line l1, TerminalOutput.line l2, TerminalOutput.file f3 ] := by
  obtain ⟨-, l1, rfl⟩ := handle_error_ok_inv e1
  obtain ⟨-, l2, rfl⟩ := handle_error_ok_inv e2
  obtain ⟨-, f3, rfl⟩ := file_error_ok_inv e3
  exact ⟨l1, l2, f3, by simp⟩

def d1W : LineTerminalOutput :=
  { line_location := "Line 1:", line_with_issue := "SW1 > G1;", arrow := "  ^",
    message := "Found \"B\", expected a non-keyword identifier" }

def d2W : LineTerminalOutput :=
  { line_location := "Line 5:", line_with_issue := "A -> B;", arrow := "^",
    message := "Found \"B\", expected a non-keyword identifier" }

def d3W : FileTerminalOutput :=
  { message := "At least one list between 'CLOCK' and 'SWITCH' is needed. neither is found" }

def h1W : ParserErrorHandler := { hC with error_output_list := [ TerminalOutput.line d1W ] }

def h2W : ParserErrorHandler :=
  { hC with error_output_list := [ TerminalOutput.line d1W, TerminalOutput.line d2W ] }

def h3W : ParserErrorHandler :=
  { hC with error_output_list :=
      [ TerminalOutput.line d1W, TerminalOutput.line d2W, TerminalOutput.file d3W ] }

/-- Witness for C7: a concrete session issuing the same syntax code twice
positionally and then the missing-clock-or-switch code file-wide. -/
theorem c7_append_order_witness :
    hC.handle_error 5
        { type := SymType.NAME, id := PyVal.pyint 1, line := 0, character_in_line := 2 }
      = (h1W, [ "handling error" ], none)
    ∧ h1W.handle_error 5
        { type := SymType.NAME, id := PyVal.pyint 1, line := 4, character_in_line := 0 }
      = (h2W, [ "handling error" ], none)
    ∧ h2W.file_error 22 = (h3W, [], none)
    ∧ ∃ l1 l2 f3, h3W.error_output_list
      = hC.error_output_list
        ++ [ TerminalOutput.line l1, TerminalOutput.line l2, TerminalOutput.file f3 ] :=
  ⟨rfl, rfl, rfl,
    c7_append_order hC h1W h2W h3W [ "handling error" ] [ "handling error" ] [] 5 5 22
      { type := SymType.NAME, id := PyVal.pyint 1, line := 0, character_in_line := 2 }
      { type := SymType.NAME, id := PyVal.pyint 1, line := 4, character_in_line := 0 }
      rfl rfl rfl⟩

/-- C8: `file_error` on the missing-clock-or-switch code appends a
`FileTerminalOutput` carrying the catalog template verbatim — no label is
substituted (the template uses no label) — and that diagnostic renders as a
blank line, "File error: " followed by the message, and a blank line, with
the phrase "At least one list between 'CLOCK' and 'SWITCH' is needed"
appearing literally. -/
theorem c8_file_error_missing_clock_or_switch (nm0 : Names) (dv : Devices) (nw : Network)
    (mo : Monitors) (sc : Scanner) (hrf : registryFresh nm0 dv nw mo) :
    (ParserErrorHandler.init nm0 dv nw mo sc).file_error
        (ParserErrorHandler.init nm0 dv nw mo sc).MISSING_CLOCK_OR_SWITCH
      = ({ ParserErrorHandler.init nm0 dv nw mo sc with
            error_output_list := (ParserErrorHandler.init nm0 dv nw mo sc).error_output_list
              ++ [ TerminalOutput.file
                  { message := "At least one list between 'CLOCK' and 'SWITCH' is needed. neither is found" } ] },
         [], none)
    ∧ FileTerminalOutput.toStr
        { message := "At least one list between 'CLOCK' and 'SWITCH' is needed. neither is found" }
      = "\n" ++ "File error: "
          ++ ("At least one list between 'CLOCK' and 'SWITCH' is needed" ++ ". neither is found")
          ++ "\n" := by
  constructor
  · simp [ParserErrorHandler.file_error, init_MISSING_CLOCK_OR_SWITCH,
      gem_MISSING_CLOCK_OR_SWITCH nm0 dv nw mo sc hrf ""]
  · decide

/-- Witness for C8 at the concrete construction. -/
theorem c8_file_error_missing_clock_or_switch_witness :
    registryFresh nm0C dvC nwC moC
    ∧ ((ParserErrorHandler.init nm0C dvC nwC moC scC).file_error
          (ParserErrorHandler.init nm0C dvC nwC moC scC).MISSING_CLOCK_OR_SWITCH
        = ({ ParserErrorHandler.init nm0C dvC nwC moC scC with
              error_output_list :=
                (ParserErrorHandler.init nm0C dvC nwC moC scC).error_output_list
                ++ [ TerminalOutput.file
                    { message := "At least one list between 'CLOCK' and 'SWITCH' is needed. neither is found" } ] },
           [], none)
        ∧ FileTerminalOutput.toStr
            { message := "At least one list between 'CLOCK' and 'SWITCH' is needed. neither is found" }
          = "\n" ++ "File error: "
              ++ ("At least one list between 'CLOCK' and 'SWITCH' is needed" ++ ". neither is found")
              ++ "\n") :=
  ⟨by unfold registryFresh; decide,
   c8_file_error_missing_clock_or_switch nm0C dvC nwC moC scC (by unfold registryFresh; decide)⟩

/-- C9: the no-monitor-defined code is parameterless — `file_error` (which
passes no label; the catalog is called with the default empty label) does
not raise on it and appends a `FileTerminalOutput` whose message is the
no-monitor template. -/
theorem c9_file_error_no_monitor (nm0 : Names) (dv : Devices) (nw : Network)
    (mo : Monitors) (sc : Scanner) (hrf : registryFresh nm0 dv nw mo) :
    (ParserErrorHandler.init nm0 dv nw mo sc).file_error
        (ParserErrorHandler.init nm0 dv nw mo sc).MONITOR_NOT_DEFINED
      = ({ ParserErrorHandler.init nm0 dv nw mo sc with
            error_output_list := (ParserErrorHandler.init nm0 dv nw mo sc).error_output_list
              ++ [ TerminalOutput.file
                  { message := "At least one monitor should be defined" } ] },
         [], none) := by
  simp [ParserErrorHandler.file_error, init_MONITOR_NOT_DEFINED,
    gem_MONITOR_NOT_DEFINED nm0 dv nw mo sc hrf ""]

/-- Witness for C9 at the concrete construction. -/
theorem c9_file_error_no_monitor_witness :
    registryFresh nm0C dvC nwC moC
    ∧ (ParserErrorHandler.init nm0C dvC nwC moC scC).file_error
        (ParserErrorHandler.init nm0C dvC nwC moC scC).MONITOR_NOT_DEFINED
      = ({ ParserErrorHandler.init nm0C dvC nwC moC scC with
            error_output_list :=
              (ParserErrorHandler.init nm0C dvC nwC moC scC).error_output_list
              ++ [ TerminalOutput.file
                  { message := "At least one monitor should be defined" } ] },
         [], none) :=
  ⟨by unfold registryFresh; decide,
   c9_file_error_no_monitor nm0C dvC nwC moC scC (by unfold registryFresh; decide)⟩

end LogSim
